import Mathlib

/-!
Verification development for the task-tracker-analysis repository.

The repository loads an issue table and a resolution lookup table,
cleans them (`load_data` in scripts/analysis.py), computes scalar
metrics (`calculate_metrics`) and a per-category breakdown
(`get_metrics_by_category`), and `analyze_tasks.py` drives the flow.

Embedding conventions:
* a pandas DataFrame is a `List` of records;
* float values are `ℚ` (all arithmetic in the source is exact over the
  inputs: sums, divisions, linear interpolation);
* a float column that can hold NaN is `Option ℚ` (`none` = NaN), and a
  statistic that pandas/NumPy evaluates to NaN (mean/median/quantile/
  min/max over an empty series, 0/0 in the SLA ratios) is `none`;
* `resolved_dt` of the source is `pd.to_datetime` of the `resolved`
  column, which is NaT exactly when `resolved` is missing, so
  "resolved_dt is not NaT" is embedded as `resolved.isSome`;
* a Python exception is an `Except` error value.
-/

/-- One row of issues.csv, with the columns the scripts use:
`created` (epoch ms), `resolved` (epoch ms, missing = NaN),
`category`, `resolution` (foreign key, missing = NaN). -/
structure Issue where
  created : Int
  resolved : Option Int
  category : String
  resolution : Option Int
deriving DecidableEq

/-- One row of resolutions.csv: `id` and the human-readable `key`. -/
structure Resolution where
  id : Int
  key : String
deriving DecidableEq

/-- One row of the cleaned table produced by `load_data`: the issue
columns plus the derived `days_to_resolve` ((resolved - created) /
86_400_000, NaN when `resolved` is missing) and the left-joined
`resolution_name`.  The `created_dt`/`resolved_dt` datetime columns are
value-wise just unit conversions of `created`/`resolved`; only the
NaT-ness of `resolved_dt` is ever read, which equals `resolved.isSome`,
so they are not carried separately. -/
structure Cleaned where
  created : Int
  resolved : Option Int
  category : String
  resolution : Option Int
  days_to_resolve : Option ℚ
  resolution_name : Option String
deriving DecidableEq

/-- `days_to_resolve` of the source:
`(issues_clean['resolved'] - issues_clean['created']) / (1000*60*60*24)`,
NaN when `resolved` is NaN. -/
def daysToResolve (i : Issue) : Option ℚ :=
  i.resolved.map (fun rv => ((rv - i.created : Int) : ℚ) / 86400000)

/-- The merge step of `load_data`: pandas `merge(..., on='resolution',
how='left')` emits, for each left row, one output row per matching
lookup row, or a single row with a null name when nothing matches. -/
def cleanRow (i : Issue) (res : List Resolution) : List Cleaned :=
  match res.filter (fun r => i.resolution == some r.id) with
  | [] => [⟨i.created, i.resolved, i.category, i.resolution, daysToResolve i, none⟩]
  | ms => ms.map (fun r =>
      ⟨i.created, i.resolved, i.category, i.resolution, daysToResolve i, some r.key⟩)

/-- `load_data` of scripts/analysis.py, after the CSVs are parsed:
drop rows with `created <= 1_000_000_000_000`, derive
`days_to_resolve`, left-join the resolution names.  (The datetime
conversions and the console printing carry no further information.) -/
def load_data (issues : List Issue) (res : List Resolution) : List Cleaned :=
  (issues.filter (fun i => decide (1000000000000 < i.created))).flatMap
    (fun i => cleanRow i res)

/-- The boolean mask `df['days_to_resolve'] >= 0`: NaN compares false. -/
def daysNonneg (c : Cleaned) : Bool :=
  match c.days_to_resolve with
  | some d => decide (0 ≤ d)
  | none => false

/-- The resolved subset of `calculate_metrics`:
`df[(df['resolved_dt'].notna()) & (df['days_to_resolve'] >= 0)]`. -/
def resolvedSubset (df : List Cleaned) : List Cleaned :=
  df.filter (fun c => c.resolved.isSome && daysNonneg c)

/-- Extract the `days_to_resolve` column of a frame whose rows all have
it present (`daysNonneg` rejects NaN, so on `resolvedSubset` the
default 0 is never used). -/
def daysColumn (l : List Cleaned) : List ℚ :=
  l.map (fun c => c.days_to_resolve.getD 0)

/-- The series `resolved['days_to_resolve']` of `calculate_metrics`. -/
def resolvedDays (df : List Cleaned) : List ℚ :=
  daysColumn (resolvedSubset df)

/-- pandas `Series.mean()`: NaN on an empty series. -/
def seriesMean (l : List ℚ) : Option ℚ :=
  if l = [] then none else some (l.sum / (l.length : ℚ))

/-- pandas `Series.min()`: NaN on an empty series. -/
def seriesMin : List ℚ → Option ℚ
  | [] => none
  | x :: xs => some (xs.foldl min x)

/-- pandas `Series.max()`: NaN on an empty series. -/
def seriesMax : List ℚ → Option ℚ
  | [] => none
  | x :: xs => some (xs.foldl max x)

/-- Linear interpolation into a sorted list at fractional index `h`
(0 ≤ h ≤ length - 1), as NumPy's default percentile interpolation:
with `i = ⌊h⌋`, the value is `s[i] + (h - i) * (s[i+1] - s[i])`,
and just `s[i]` when `i` is the last index (then `h - i = 0`, so the
out-of-range neighbour defaults to `s[i]` without effect). -/
def interp (s : List ℚ) (h : ℚ) : ℚ :=
  s.getD (⌊h⌋).toNat 0 +
    (h - (((⌊h⌋).toNat : ℕ) : ℚ)) *
      (s.getD ((⌊h⌋).toNat + 1) (s.getD (⌊h⌋).toNat 0) - s.getD (⌊h⌋).toNat 0)

/-- pandas `Series.quantile(q)` (linear interpolation, the default):
sort the data and interpolate at index `q * (n - 1)`; NaN on an empty
series.  `Series.median()` is `quantile (1/2)`: for odd n the middle
element, for even n the mean of the two middle elements, which is what
interpolation at `(n-1)/2` yields.  Which sorting algorithm runs is
immaterial: over a linear order the sorted permutation of the data is
unique, so `insertionSort` (structurally recursive, hence
definitionally transparent) is used. -/
def quantileVal (l : List ℚ) (q : ℚ) : ℚ :=
  interp (l.insertionSort (· ≤ ·)) (q * ((l.length : ℚ) - 1))

/-- pandas `Series.quantile(q)`: NaN on an empty series, otherwise
`quantileVal`. -/
def quantile (l : List ℚ) (q : ℚ) : Option ℚ :=
  if l = [] then none else some (quantileVal l q)

/-- The value of an SLA ratio of `calculate_metrics`:
`(resolved['days_to_resolve'] <= t).sum() / len(resolved) * 100`. -/
def slaVal (days : List ℚ) (t : ℚ) : ℚ :=
  ((days.countP (fun d => decide (d ≤ t))) : ℚ) / (days.length : ℚ) * 100

/-- An SLA ratio of `calculate_metrics`.  When `resolved` is empty the
expression is NumPy `0/0`, i.e. NaN (a warning, not an exception;
analyze_tasks.py suppresses warnings). -/
def slaPct (days : List ℚ) (t : ℚ) : Option ℚ :=
  if days = [] then none else some (slaVal days t)

/-- The value of an overrun ratio of `calculate_metrics`:
`(resolved['days_to_resolve'] > t).sum() / len(resolved) * 100`. -/
def overVal (days : List ℚ) (t : ℚ) : ℚ :=
  ((days.countP (fun d => decide (t < d))) : ℚ) / (days.length : ℚ) * 100

/-- An overrun ratio of `calculate_metrics`, NaN (as `0/0`) when
`resolved` is empty. -/
def overPct (days : List ℚ) (t : ℚ) : Option ℚ :=
  if days = [] then none else some (overVal days t)

/-- The error `calculate_metrics` can raise: Python's
`ZeroDivisionError` from `len(resolved) / total` when `total = 0`. -/
inductive MetricsError where
  | divisionByZero
deriving DecidableEq

/-- The metrics dict of `calculate_metrics`.  Counts are natural
numbers (`int` in the source); `open_count` is the source's key
`'open'` (a Lean keyword).  `std_days` (sample standard deviation,
which needs a square root and no claim concerns) is omitted from the
embedding; every other key is present. -/
structure Metrics where
  total : ℕ
  resolved : ℕ
  open_count : ℕ
  resolution_rate : ℚ
  avg_days : Option ℚ
  median_days : Option ℚ
  min_days : Option ℚ
  max_days : Option ℚ
  p25_days : Option ℚ
  p75_days : Option ℚ
  p90_days : Option ℚ
  p95_days : Option ℚ
  sla_1day : Option ℚ
  sla_3day : Option ℚ
  sla_7day : Option ℚ
  sla_14day : Option ℚ
  sla_30day : Option ℚ
  long_30pct : Option ℚ
  long_90pct : Option ℚ
deriving DecidableEq

/-- The dict literal of `calculate_metrics`.  `open` is
`total - len(resolved)` with exact integer subtraction (here
`len(resolved) ≤ total` since `resolved` is a filtered subset, so `ℕ`
subtraction agrees). -/
def metricsDict (df : List Cleaned) : Metrics :=
  {
    total := df.length
    resolved := (resolvedSubset df).length
    open_count := df.length - (resolvedSubset df).length
    resolution_rate := ((resolvedSubset df).length : ℚ) / (df.length : ℚ) * 100
    avg_days := seriesMean (resolvedDays df)
    median_days := quantile (resolvedDays df) (1/2)
    min_days := seriesMin (resolvedDays df)
    max_days := seriesMax (resolvedDays df)
    p25_days := quantile (resolvedDays df) (1/4)
    p75_days := quantile (resolvedDays df) (3/4)
    p90_days := quantile (resolvedDays df) (9/10)
    p95_days := quantile (resolvedDays df) (19/20)
    sla_1day := slaPct (resolvedDays df) 1
    sla_3day := slaPct (resolvedDays df) 3
    sla_7day := slaPct (resolvedDays df) 7
    sla_14day := slaPct (resolvedDays df) 14
    sla_30day := slaPct (resolvedDays df) 30
    long_30pct := overPct (resolvedDays df) 30
    long_90pct := overPct (resolvedDays df) 90 }

/-- `calculate_metrics` of scripts/analysis.py.  The dict literal in the
source evaluates `len(resolved) / total * 100` eagerly, so an empty
frame raises `ZeroDivisionError` before any dict is produced; that is
the `.error` branch. -/
def calculate_metrics (df : List Cleaned) : Except MetricsError Metrics :=
  if df.length = 0 then .error .divisionByZero
  else .ok (metricsDict df)

/-- One row of the per-category breakdown DataFrame. -/
structure CategoryMetrics where
  category : String
  total : ℕ
  resolved : ℕ
  resolution_rate : ℚ
  avg_days : ℚ
  median_days : ℚ
  p95_days : ℚ
deriving DecidableEq

/-- The unique categories in sorted order:
`sorted(df['category'].unique())`.  `dedup` keeps one copy of each
category and sorting under the total order on strings (Lean's `String`
order is lexicographic on code points, as Python's) then yields the
unique sorted duplicate-free list, which is exactly Python's
`sorted(unique(...))` regardless of the algorithm. -/
def sortedCategories (df : List Cleaned) : List String :=
  ((df.map Cleaned.category).dedup).insertionSort (· ≤ ·)

/-- The loop body of `get_metrics_by_category` for one category:
`cat_all` filters by category, `cat_resolved` further by
`resolved_dt.notna()` (note: no elapsed-days condition), `cat_with_time`
further by `days_to_resolve >= 0`; the time statistics fall back to 0 on
an empty `cat_with_time`, the rate to 0 on an empty `cat_all`. -/
def categoryRow (df : List Cleaned) (category : String) : CategoryMetrics :=
  let cat_all := df.filter (fun c => c.category == category)
  let cat_resolved := cat_all.filter (fun c => c.resolved.isSome)
  let cat_with_time := cat_resolved.filter daysNonneg
  { category := category
    total := cat_all.length
    resolved := cat_resolved.length
    resolution_rate :=
      if 0 < cat_all.length
      then (cat_resolved.length : ℚ) / (cat_all.length : ℚ) * 100 else 0
    avg_days :=
      if 0 < cat_with_time.length
      then (seriesMean (daysColumn cat_with_time)).getD 0 else 0
    median_days :=
      if 0 < cat_with_time.length
      then (quantile (daysColumn cat_with_time) (1/2)).getD 0 else 0
    p95_days :=
      if 0 < cat_with_time.length
      then (quantile (daysColumn cat_with_time) (19/20)).getD 0 else 0 }

/-- `get_metrics_by_category` of scripts/analysis.py: one `categoryRow`
per unique category, in sorted category order. -/
def get_metrics_by_category (df : List Cleaned) : List CategoryMetrics :=
  (sortedCategories df).map (categoryRow df)

/-- The loader failure: `pd.read_csv` raises `FileNotFoundError` on a
nonexistent path. -/
inductive LoadError where
  | fileNotFound
deriving DecidableEq

/-- `load_data` seen with its file access: each input path is modelled
as `Option` parsed contents, `none` meaning the file does not exist, in
which case `pd.read_csv` raises `FileNotFoundError` before any cleaning
happens. -/
def load_data_from_files (issues_file : Option (List Issue))
    (resolutions_file : Option (List Resolution)) :
    Except LoadError (List Cleaned) :=
  match issues_file, resolutions_file with
  | some issues, some res => .ok (load_data issues res)
  | _, _ => .error .fileNotFound

/-- The control flow of `main` in analyze_tasks.py: Step 2 wraps
`load_data` in `try/except FileNotFoundError` and returns `False` on
that error; otherwise the run continues and its outcome is that of the
remaining steps (metrics printing and chart generation, abstracted here
as `rest_ok`: the chart `try/except` returns `False` on failure, and
`True` is returned at the end).  (Named `main_flow` because Lean
reserves `main`.) -/
def main_flow (issues_file : Option (List Issue))
    (resolutions_file : Option (List Resolution)) (rest_ok : Bool) : Bool :=
  match load_data_from_files issues_file resolutions_file with
  | .error _ => false
  | .ok _ => rest_ok

/-- A concrete cleaned table whose resolved subset has elapsed days
exactly [1, 2, 3, 10, 31] (timestamps consistent with the derived
column: resolved = created + days ⬝ 86_400_000 ms). -/
def fiveDayTable : List Cleaned :=
  [⟨2000000000000, some 2000086400000, "Task", none, some 1, none⟩,
   ⟨2000000000000, some 2000172800000, "Task", none, some 2, none⟩,
   ⟨2000000000000, some 2000259200000, "Bug", none, some 3, none⟩,
   ⟨2000000000000, some 2000864000000, "Bug", none, some 10, none⟩,
   ⟨2000000000000, some 2002678400000, "Task", none, some 31, none⟩]

/-- A one-row cleaned table whose single record has a resolution
instant but negative elapsed days (resolved one day before created),
i.e. a record outside the resolved subset whose `resolved_dt` is
nevertheless non-null. -/
def negativeDayTable : List Cleaned :=
  [⟨2000000000000, some 1999913600000, "Task", none, some (-1), none⟩]

/-! ## General lemmas about the embedding -/

lemma resolvedDays_length (df : List Cleaned) :
    (resolvedDays df).length = (resolvedSubset df).length :=
  List.length_map _ _

lemma resolvedSubset_length_le (df : List Cleaned) :
    (resolvedSubset df).length ≤ df.length :=
  List.length_filter_le _ _

lemma resolvedDays_eq_nil (df : List Cleaned) (h : resolvedSubset df = []) :
    resolvedDays df = [] := by
  simp [resolvedDays, daysColumn, h]

lemma resolvedDays_ne_nil (df : List Cleaned) (h : resolvedSubset df ≠ []) :
    resolvedDays df ≠ [] := by
  simpa [resolvedDays, daysColumn] using h

lemma length_ne_zero_of_resolvedSubset (df : List Cleaned)
    (h : resolvedSubset df ≠ []) : df.length ≠ 0 := by
  intro h0
  rcases List.length_eq_zero.mp h0 with rfl
  exact h rfl

lemma calculate_metrics_ok (df : List Cleaned) (hne : df.length ≠ 0) :
    calculate_metrics df = .ok (metricsDict df) := by
  simp only [calculate_metrics, if_neg hne]

/-- `C10`: on the empty cleaned table `calculate_metrics` does not
return a metrics dict: the eager `len(resolved) / total * 100` raises
`ZeroDivisionError`; a nonempty table is exactly the precondition for
the call to return. -/
theorem calculate_metrics_empty_divzero :
    calculate_metrics ([] : List Cleaned) = .error .divisionByZero ∧
    ∀ df : List Cleaned, (∃ m, calculate_metrics df = .ok m) ↔ df ≠ [] := by
  refine ⟨rfl, fun df => ⟨?_, ?_⟩⟩
  · rintro ⟨m, hm⟩ rfl
    simp [calculate_metrics] at hm
  · intro h
    have hne : ¬ df.length = 0 := fun hh => h (List.length_eq_zero.mp hh)
    exact ⟨metricsDict df, calculate_metrics_ok df hne⟩

/-- Closed instance of `calculate_metrics_empty_divzero` at a concrete
one-row table. -/
theorem calculate_metrics_empty_divzero_witness :
    ∃ m, calculate_metrics [⟨2000000000000, none, "Task", none, none, none⟩] = .ok m :=
  (calculate_metrics_empty_divzero.2 _).mpr (by simp)

/-- `C7`: on a nonempty cleaned table the counts satisfy
`open + resolved = total` with `total` the row count, and the
resolution rate equals `resolved / total * 100` and lies in [0, 100]. -/
theorem calculate_metrics_counts (df : List Cleaned) (h : df ≠ []) :
    ∃ m, calculate_metrics df = .ok m ∧
      m.open_count + m.resolved = m.total ∧
      m.total = df.length ∧
      m.resolution_rate = (m.resolved : ℚ) / (m.total : ℚ) * 100 ∧
      0 ≤ m.resolution_rate ∧ m.resolution_rate ≤ 100 := by
  have hne : ¬ df.length = 0 := fun hh => h (List.length_eq_zero.mp hh)
  have hpos : (0 : ℚ) < (df.length : ℚ) := by
    exact_mod_cast Nat.pos_of_ne_zero hne
  refine ⟨metricsDict df, calculate_metrics_ok df hne, ?_, rfl, rfl, ?_, ?_⟩
  · exact Nat.sub_add_cancel (resolvedSubset_length_le df)
  · show (0 : ℚ) ≤ ((resolvedSubset df).length : ℚ) / (df.length : ℚ) * 100
    positivity
  · have hle : ((resolvedSubset df).length : ℚ) / (df.length : ℚ) ≤ 1 :=
      (div_le_one hpos).mpr (by exact_mod_cast resolvedSubset_length_le df)
    calc ((resolvedSubset df).length : ℚ) / (df.length : ℚ) * 100
        ≤ 1 * 100 := by
          exact mul_le_mul_of_nonneg_right hle (by norm_num)
      _ = 100 := by norm_num

/-- Closed instance of `calculate_metrics_counts` at a concrete
one-row table. -/
theorem calculate_metrics_counts_witness :
    ∃ m, calculate_metrics [⟨2000000000000, none, "Task", none, none, none⟩] = .ok m ∧
      m.open_count + m.resolved = m.total ∧
      m.total = [(⟨2000000000000, none, "Task", none, none, none⟩ : Cleaned)].length ∧
      m.resolution_rate = (m.resolved : ℚ) / (m.total : ℚ) * 100 ∧
      0 ≤ m.resolution_rate ∧ m.resolution_rate ≤ 100 :=
  calculate_metrics_counts _ (by simp)

/-- `C3`: on a nonempty cleaned table whose resolved subset is empty,
`calculate_metrics` still returns (no exception: the only division by a
Python `int` divides by `total > 0`; the NumPy `0/0` ratios give NaN
under suppressed warnings), and the mean/median/percentile statistics
over elapsed days are NaN. -/
theorem calculate_metrics_empty_resolved (df : List Cleaned)
    (h1 : df ≠ []) (h2 : resolvedSubset df = []) :
    ∃ m, calculate_metrics df = .ok m ∧
      m.avg_days = none ∧ m.median_days = none ∧
      m.p25_days = none ∧ m.p75_days = none ∧
      m.p90_days = none ∧ m.p95_days = none := by
  have hne : ¬ df.length = 0 := fun hh => h1 (List.length_eq_zero.mp hh)
  have hd : resolvedDays df = [] := resolvedDays_eq_nil df h2
  refine ⟨metricsDict df, calculate_metrics_ok df hne, ?_, ?_, ?_, ?_, ?_, ?_⟩ <;>
    simp [metricsDict, seriesMean, quantile, hd]

/-- Closed instance of `calculate_metrics_empty_resolved` at a
one-row table with an unresolved row. -/
theorem calculate_metrics_empty_resolved_witness :
    ∃ m, calculate_metrics [⟨2000000000000, none, "Task", none, none, none⟩] = .ok m ∧
      m.avg_days = none ∧ m.median_days = none ∧
      m.p25_days = none ∧ m.p75_days = none ∧
      m.p90_days = none ∧ m.p95_days = none :=
  calculate_metrics_empty_resolved _ (by simp) (by simp [resolvedSubset, daysNonneg])

lemma cleanRow_created {i : Issue} {res : List Resolution} {c : Cleaned}
    (hc : c ∈ cleanRow i res) : c.created = i.created := by
  unfold cleanRow at hc
  split at hc
  · simp only [List.mem_singleton] at hc
    rw [hc]
  · rcases List.mem_map.mp hc with ⟨r, _, rfl⟩
    rfl

/-- `C6`: every row of the cleaned table produced by `load_data` has
creation timestamp strictly above the 1e12 ms validity floor. -/
theorem load_data_created_floor (issues : List Issue) (res : List Resolution)
    (c : Cleaned) (hc : c ∈ load_data issues res) :
    1000000000000 < c.created := by
  simp only [load_data, List.mem_flatMap, List.mem_filter] at hc
  obtain ⟨i, ⟨_, hlt⟩, hmem⟩ := hc
  rw [cleanRow_created hmem]
  exact of_decide_eq_true hlt

/-- Closed instance of `load_data_created_floor` on a two-row issue
table: the surviving row is above the floor. -/
theorem load_data_created_floor_witness :
    1000000000000 <
      (Cleaned.mk 2000000000000 none "Task" none none none).created :=
  load_data_created_floor
    [⟨999, none, "Bug", none⟩, ⟨2000000000000, none, "Task", none⟩] []
    ⟨2000000000000, none, "Task", none, none, none⟩
    (by simp [load_data, cleanRow, daysToResolve])

/-- `C8`: a missing input file makes the loader raise the
file-not-found condition, and `main` catches it and returns the failure
status `False` instead of propagating the exception. -/
theorem main_flow_file_not_found (issues_file : Option (List Issue))
    (resolutions_file : Option (List Resolution)) (rest_ok : Bool)
    (h : issues_file = none ∨ resolutions_file = none) :
    load_data_from_files issues_file resolutions_file = .error .fileNotFound ∧
    main_flow issues_file resolutions_file rest_ok = false := by
  rcases h with rfl | rfl
  · cases resolutions_file <;> simp [load_data_from_files, main_flow]
  · cases issues_file <;> simp [load_data_from_files, main_flow]

/-- Closed instance of `main_flow_file_not_found`: both files
missing. -/
theorem main_flow_file_not_found_witness :
    load_data_from_files (none : Option (List Issue)) (none : Option (List Resolution)) =
      .error .fileNotFound ∧
    main_flow (none : Option (List Issue)) (none : Option (List Resolution)) true = false :=
  main_flow_file_not_found none none true (Or.inl rfl)

/-! ## The spec's worked example (C1) -/

lemma fiveDayTable_days : resolvedDays fiveDayTable = [1, 2, 3, 10, 31] := by
  decide

lemma slaVal_example_30 : slaVal [1, 2, 3, 10, 31] 30 = 80 := by
  norm_num [slaVal, List.countP_cons, List.countP_nil]

/-- `C1` counterexample: on a concrete table whose resolved subset has
elapsed days exactly [1, 2, 3, 10, 31], `calculate_metrics` does not
return sla_30day = 100 (the 31-day record misses the 30-day threshold,
so sla_30day is 80; indeed sla_30day + long_30pct is always 100, so
sla_30day = 100 and long_30pct = 20 cannot hold together). -/
theorem calculate_metrics_example_not_100 :
    ¬ (∃ m, calculate_metrics fiveDayTable = .ok m ∧
        m.sla_30day = some 100 ∧ m.sla_7day = some 60 ∧ m.long_30pct = some 20) := by
  rintro ⟨m, hm, h30, -, -⟩
  have hne : fiveDayTable.length ≠ 0 := by simp [fiveDayTable]
  rw [calculate_metrics_ok _ hne] at hm
  injection hm with hmeq
  rw [← hmeq] at h30
  have h80 : (metricsDict fiveDayTable).sla_30day = some 80 := by
    show slaPct (resolvedDays fiveDayTable) 30 = some 80
    rw [fiveDayTable_days]
    simp only [slaPct, if_neg (by simp : ¬([1, 2, 3, 10, 31] : List ℚ) = [])]
    rw [slaVal_example_30]
  rw [h80] at h30
  exact absurd (Option.some.inj h30) (by norm_num)

/-- `C1` (amended): on every table whose resolved subset has elapsed
days exactly [1, 2, 3, 10, 31], `calculate_metrics` returns
sla_30day = 80, sla_7day = 60 and long_30pct = 20. -/
theorem calculate_metrics_example (df : List Cleaned)
    (h : resolvedDays df = [1, 2, 3, 10, 31]) :
    ∃ m, calculate_metrics df = .ok m ∧
      m.sla_30day = some 80 ∧ m.sla_7day = some 60 ∧ m.long_30pct = some 20 := by
  have hlen : (resolvedSubset df).length = 5 := by
    have h2 := resolvedDays_length df
    rw [h] at h2
    simpa using h2.symm
  have hne : df.length ≠ 0 := by
    have := resolvedSubset_length_le df
    omega
  have hnil : ¬ ([1, 2, 3, 10, 31] : List ℚ) = [] := by simp
  refine ⟨metricsDict df, calculate_metrics_ok df hne, ?_, ?_, ?_⟩
  · show slaPct (resolvedDays df) 30 = some 80
    rw [h]
    simp only [slaPct, if_neg hnil]
    rw [slaVal_example_30]
  · show slaPct (resolvedDays df) 7 = some 60
    rw [h]
    simp only [slaPct, if_neg hnil]
    norm_num [slaVal, List.countP_cons, List.countP_nil]
  · show overPct (resolvedDays df) 30 = some 20
    rw [h]
    simp only [overPct, if_neg hnil]
    norm_num [overVal, List.countP_cons, List.countP_nil]

/-- Closed instance of `calculate_metrics_example` at the concrete
five-row table. -/
theorem calculate_metrics_example_witness :
    ∃ m, calculate_metrics fiveDayTable = .ok m ∧
      m.sla_30day = some 80 ∧ m.sla_7day = some 60 ∧ m.long_30pct = some 20 :=
  calculate_metrics_example fiveDayTable fiveDayTable_days

/-! ## SLA monotonicity (C4) -/

lemma slaVal_mono (days : List ℚ) {t t' : ℚ} (h : t ≤ t') :
    slaVal days t ≤ slaVal days t' := by
  have hc : ((days.countP (fun d => decide (d ≤ t))) : ℚ) ≤
      ((days.countP (fun d => decide (d ≤ t'))) : ℚ) := by
    have hmono := List.countP_mono_left (l := days)
      (p := fun d => decide (d ≤ t)) (q := fun d => decide (d ≤ t'))
      (fun x _ hx => by
        simp only [decide_eq_true_eq] at hx ⊢
        exact le_trans hx h)
    exact_mod_cast hmono
  have hn : (0 : ℚ) ≤ ((days.length : ℕ) : ℚ) := Nat.cast_nonneg _
  unfold slaVal
  rw [div_eq_mul_inv, div_eq_mul_inv]
  exact mul_le_mul_of_nonneg_right
    (mul_le_mul_of_nonneg_right hc (inv_nonneg.mpr hn)) (by norm_num)

/-- `C4`: on every table with nonempty resolved subset, the five SLA
percentages are non-decreasing in the threshold. -/
theorem sla_thresholds_monotone (df : List Cleaned) (h : resolvedSubset df ≠ []) :
    ∃ m, calculate_metrics df = .ok m ∧
      ∃ s1 s3 s7 s14 s30,
        m.sla_1day = some s1 ∧ m.sla_3day = some s3 ∧ m.sla_7day = some s7 ∧
        m.sla_14day = some s14 ∧ m.sla_30day = some s30 ∧
        s1 ≤ s3 ∧ s3 ≤ s7 ∧ s7 ≤ s14 ∧ s14 ≤ s30 := by
  have hne := length_ne_zero_of_resolvedSubset df h
  have hd : resolvedDays df ≠ [] := resolvedDays_ne_nil df h
  refine ⟨metricsDict df, calculate_metrics_ok df hne,
    slaVal (resolvedDays df) 1, slaVal (resolvedDays df) 3,
    slaVal (resolvedDays df) 7, slaVal (resolvedDays df) 14,
    slaVal (resolvedDays df) 30,
    ?_, ?_, ?_, ?_, ?_,
    slaVal_mono _ (by norm_num), slaVal_mono _ (by norm_num),
    slaVal_mono _ (by norm_num), slaVal_mono _ (by norm_num)⟩ <;>
  simp [metricsDict, slaPct, hd]

/-- Closed instance of `sla_thresholds_monotone` at the concrete
five-row table. -/
theorem sla_thresholds_monotone_witness :
    ∃ m, calculate_metrics fiveDayTable = .ok m ∧
      ∃ s1 s3 s7 s14 s30,
        m.sla_1day = some s1 ∧ m.sla_3day = some s3 ∧ m.sla_7day = some s7 ∧
        m.sla_14day = some s14 ∧ m.sla_30day = some s30 ∧
        s1 ≤ s3 ∧ s3 ≤ s7 ∧ s7 ≤ s14 ∧ s14 ≤ s30 :=
  sla_thresholds_monotone fiveDayTable (by decide)

/-! ## Percentile monotonicity (C5) -/

lemma sorted_getD_le {s : List ℚ} (hs : s.Sorted (· ≤ ·)) {i j : ℕ}
    (hij : i ≤ j) (hj : j < s.length) : s.getD i 0 ≤ s.getD j 0 := by
  have hi : i < s.length := lt_of_le_of_lt hij hj
  rw [List.getD_eq_getElem s 0 hi, List.getD_eq_getElem s 0 hj]
  rcases lt_or_eq_of_le hij with hlt | rfl
  · exact List.pairwise_iff_get.mp hs ⟨i, hi⟩ ⟨j, hj⟩ hlt
  · exact le_rfl

lemma getD_le_getD_succ {s : List ℚ} (hs : s.Sorted (· ≤ ·)) {i : ℕ} :
    s.getD i 0 ≤ s.getD (i + 1) (s.getD i 0) := by
  rcases Nat.lt_or_ge (i + 1) s.length with h1 | h1
  · calc s.getD i 0 ≤ s.getD (i + 1) 0 := sorted_getD_le hs (Nat.le_succ i) h1
      _ = s.getD (i + 1) (s.getD i 0) := by
          rw [List.getD_eq_getElem s 0 h1, List.getD_eq_getElem s _ h1]
  · rw [List.getD_eq_default s _ h1]

lemma interp_le_aux {s : List ℚ} (hs : s.Sorted (· ≤ ·)) {i j : ℕ} {x y : ℚ}
    (hjn : j < s.length) (hij : i ≤ j)
    (hxi : x ≤ (i : ℚ) + 1) (hjy : (j : ℚ) ≤ y)
    (hxy : x ≤ y) :
    s.getD i 0 + (x - (i : ℚ)) * (s.getD (i + 1) (s.getD i 0) - s.getD i 0) ≤
    s.getD j 0 + (y - (j : ℚ)) * (s.getD (j + 1) (s.getD j 0) - s.getD j 0) := by
  have habi : s.getD i 0 ≤ s.getD (i + 1) (s.getD i 0) := getD_le_getD_succ hs
  have habj : s.getD j 0 ≤ s.getD (j + 1) (s.getD j 0) := getD_le_getD_succ hs
  rcases Nat.lt_or_ge i j with hlt | hge
  · have h1n : i + 1 ≤ j := hlt
    have hi1n : i + 1 < s.length := lt_of_le_of_lt h1n hjn
    have e1 : s.getD (i + 1) (s.getD i 0) = s.getD (i + 1) 0 := by
      rw [List.getD_eq_getElem s _ hi1n, List.getD_eq_getElem s 0 hi1n]
    have step1 : s.getD i 0 + (x - (i : ℚ)) *
        (s.getD (i + 1) (s.getD i 0) - s.getD i 0) ≤ s.getD (i + 1) 0 := by
      rw [e1]
      have hba : 0 ≤ s.getD (i + 1) 0 - s.getD i 0 := by
        rw [← e1]
        exact sub_nonneg.mpr habi
      have hfrac : x - (i : ℚ) ≤ 1 := by linarith
      have hp : (x - (i : ℚ)) * (s.getD (i + 1) 0 - s.getD i 0) ≤
          s.getD (i + 1) 0 - s.getD i 0 := by
        have := mul_le_mul_of_nonneg_right hfrac hba
        simpa using this
      linarith
    have step2 : s.getD (i + 1) 0 ≤ s.getD j 0 := sorted_getD_le hs h1n hjn
    have step3 : s.getD j 0 ≤ s.getD j 0 + (y - (j : ℚ)) *
        (s.getD (j + 1) (s.getD j 0) - s.getD j 0) := by
      have hfrac : 0 ≤ y - (j : ℚ) := by linarith
      have hba : 0 ≤ s.getD (j + 1) (s.getD j 0) - s.getD j 0 :=
        sub_nonneg.mpr habj
      have := mul_nonneg hfrac hba
      linarith
    linarith
  · have heq : i = j := le_antisymm hij hge
    subst heq
    have hba : 0 ≤ s.getD (i + 1) (s.getD i 0) - s.getD i 0 := sub_nonneg.mpr habi
    have := mul_le_mul_of_nonneg_right (sub_le_sub_right hxy ((i : ℚ))) hba
    linarith

lemma interp_mono {s : List ℚ} (hs : s.Sorted (· ≤ ·)) {x y : ℚ}
    (hx : 0 ≤ x) (hxy : x ≤ y) (hy : y ≤ (s.length : ℚ) - 1) :
    interp s x ≤ interp s y := by
  have hy0 : 0 ≤ y := le_trans hx hxy
  have hi_eq : (((⌊x⌋).toNat : ℤ)) = ⌊x⌋ := Int.toNat_of_nonneg (Int.floor_nonneg.mpr hx)
  have hj_eq : (((⌊y⌋).toNat : ℤ)) = ⌊y⌋ := Int.toNat_of_nonneg (Int.floor_nonneg.mpr hy0)
  have hix : (((⌊x⌋).toNat : ℕ) : ℚ) ≤ x := by
    have h1 := Int.floor_le x
    rw [← hi_eq] at h1
    exact_mod_cast h1
  have hxi : x ≤ (((⌊x⌋).toNat : ℕ) : ℚ) + 1 := by
    have h1 := Int.lt_floor_add_one x
    rw [← hi_eq] at h1
    have h2 : x < (((⌊x⌋).toNat : ℕ) : ℚ) + 1 := by exact_mod_cast h1
    exact le_of_lt h2
  have hjy : (((⌊y⌋).toNat : ℕ) : ℚ) ≤ y := by
    have h1 := Int.floor_le y
    rw [← hj_eq] at h1
    exact_mod_cast h1
  have hij : (⌊x⌋).toNat ≤ (⌊y⌋).toNat := Int.toNat_le_toNat (Int.floor_le_floor hxy)
  have hjn : (⌊y⌋).toNat < s.length := by
    have h1 : (((⌊y⌋).toNat : ℕ) : ℚ) ≤ (s.length : ℚ) - 1 := le_trans hjy hy
    have h2 : (((⌊y⌋).toNat : ℕ) : ℚ) + 1 ≤ (s.length : ℚ) := by linarith
    have h3 : (⌊y⌋).toNat + 1 ≤ s.length := by exact_mod_cast h2
    omega
  exact interp_le_aux hs hjn hij hxi hjy hxy

lemma quantileVal_mono (l : List ℚ) (hl : l ≠ []) {q q' : ℚ}
    (h0 : 0 ≤ q) (hqq : q ≤ q') (h1 : q' ≤ 1) :
    quantileVal l q ≤ quantileVal l q' := by
  have hs : (l.insertionSort (· ≤ ·)).Sorted (· ≤ ·) :=
    List.sorted_insertionSort _ l
  have hlen : (l.insertionSort (· ≤ ·)).length = l.length :=
    (List.perm_insertionSort _ l).length_eq
  have hn : 1 ≤ l.length := List.length_pos.mpr hl
  have hn1 : (0 : ℚ) ≤ (l.length : ℚ) - 1 := by
    have h2 : (1 : ℚ) ≤ (l.length : ℚ) := by exact_mod_cast hn
    linarith
  unfold quantileVal
  apply interp_mono hs
  · exact mul_nonneg h0 hn1
  · exact mul_le_mul_of_nonneg_right hqq hn1
  · rw [hlen]
    calc q' * ((l.length : ℚ) - 1) ≤ 1 * ((l.length : ℚ) - 1) :=
        mul_le_mul_of_nonneg_right h1 hn1
      _ = (l.length : ℚ) - 1 := one_mul _

/-- `C5`: on every table with nonempty resolved subset, the percentile
metrics satisfy p25 ≤ median ≤ p75 ≤ p90 ≤ p95. -/
theorem percentiles_monotone (df : List Cleaned) (h : resolvedSubset df ≠ []) :
    ∃ m, calculate_metrics df = .ok m ∧
      ∃ q25 q50 q75 q90 q95,
        m.p25_days = some q25 ∧ m.median_days = some q50 ∧
        m.p75_days = some q75 ∧ m.p90_days = some q90 ∧
        m.p95_days = some q95 ∧
        q25 ≤ q50 ∧ q50 ≤ q75 ∧ q75 ≤ q90 ∧ q90 ≤ q95 := by
  have hne := length_ne_zero_of_resolvedSubset df h
  have hd : resolvedDays df ≠ [] := resolvedDays_ne_nil df h
  refine ⟨metricsDict df, calculate_metrics_ok df hne,
    quantileVal (resolvedDays df) (1/4), quantileVal (resolvedDays df) (1/2),
    quantileVal (resolvedDays df) (3/4), quantileVal (resolvedDays df) (9/10),
    quantileVal (resolvedDays df) (19/20),
    ?_, ?_, ?_, ?_, ?_,
    quantileVal_mono _ hd (by norm_num) (by norm_num) (by norm_num),
    quantileVal_mono _ hd (by norm_num) (by norm_num) (by norm_num),
    quantileVal_mono _ hd (by norm_num) (by norm_num) (by norm_num),
    quantileVal_mono _ hd (by norm_num) (by norm_num) (by norm_num)⟩ <;>
  simp [metricsDict, quantile, hd]

/-- Closed instance of `percentiles_monotone` at the concrete five-row
table. -/
theorem percentiles_monotone_witness :
    ∃ m, calculate_metrics fiveDayTable = .ok m ∧
      ∃ q25 q50 q75 q90 q95,
        m.p25_days = some q25 ∧ m.median_days = some q50 ∧
        m.p75_days = some q75 ∧ m.p90_days = some q90 ∧
        m.p95_days = some q95 ∧
        q25 ≤ q50 ∧ q50 ≤ q75 ∧ q75 ≤ q90 ∧ q90 ≤ q95 :=
  percentiles_monotone fiveDayTable (by decide)

/-! ## Per-category breakdown (C9, C2) -/

lemma categoryRow_total (df : List Cleaned) (cat : String) :
    (categoryRow df cat).total = (df.map Cleaned.category).count cat := by
  show (df.filter (fun c => c.category == cat)).length = _
  rw [← List.countP_eq_length_filter]
  simp only [List.count, List.countP_map]
  rfl

/-- `C9`: the per-category `total` values sum to the number of rows of
the cleaned table. -/
theorem category_totals_sum (df : List Cleaned) :
    ((get_metrics_by_category df).map (fun e => e.total)).sum = df.length := by
  unfold get_metrics_by_category
  rw [List.map_map]
  have h1 : ((fun e : CategoryMetrics => e.total) ∘ categoryRow df) =
      fun cat => (df.map Cleaned.category).count cat := by
    funext cat
    exact categoryRow_total df cat
  rw [h1]
  have hperm :
      ((sortedCategories df).map fun cat => (df.map Cleaned.category).count cat).Perm
        (((df.map Cleaned.category).dedup).map fun cat =>
          (df.map Cleaned.category).count cat) :=
    (List.perm_insertionSort _ _).map _
  rw [hperm.sum_eq, List.sum_map_count_dedup_eq_length, List.length_map]

/-- `C2` counterexample: on the one-row table whose record has a
non-null resolution instant but negative elapsed days, the per-category
`resolved` count is 1 while the resolved subset (non-null AND
non-negative) holds 0 records of that category: the breakdown does not
count the resolved subset. -/
theorem category_resolved_not_subset_count :
    ¬ (∀ e ∈ get_metrics_by_category negativeDayTable,
        e.resolved = ((resolvedSubset negativeDayTable).filter
          (fun c => c.category == e.category)).length) := by
  intro hclaim
  have hmem : categoryRow negativeDayTable "Task" ∈
      get_metrics_by_category negativeDayTable := by
    apply List.mem_map.mpr
    refine ⟨"Task", ?_, rfl⟩
    unfold sortedCategories
    rw [(List.perm_insertionSort _ _).mem_iff, List.mem_dedup]
    simp [negativeDayTable]
  have h := hclaim _ hmem
  have h1 : (categoryRow negativeDayTable "Task").resolved = 1 := by decide
  have h2 : ((resolvedSubset negativeDayTable).filter
      (fun c => c.category == (categoryRow negativeDayTable "Task").category)).length = 0 := by
    decide
  rw [h1, h2] at h
  exact one_ne_zero h

/-- `C2` (amended): in every per-category breakdown row, `resolved`
counts the records of that category with a non-null resolution instant,
with no restriction on the elapsed days (so the resolution rate divides
that count by the category total). -/
theorem category_resolved_counts_notna (df : List Cleaned) (e : CategoryMetrics)
    (he : e ∈ get_metrics_by_category df) :
    e.resolved = (df.filter
      (fun c => c.resolved.isSome && (c.category == e.category))).length := by
  rcases List.mem_map.mp he with ⟨cat, _, rfl⟩
  show ((df.filter (fun c => c.category == cat)).filter
    (fun c => c.resolved.isSome)).length = _
  rw [List.filter_filter]
  rfl

/-- Closed instance of `category_resolved_counts_notna` at the one-row
table with negative elapsed days. -/
theorem category_resolved_counts_notna_witness :
    (categoryRow negativeDayTable "Task").resolved =
      (negativeDayTable.filter
        (fun c => c.resolved.isSome &&
          (c.category == (categoryRow negativeDayTable "Task").category))).length :=
  category_resolved_counts_notna negativeDayTable _
    (List.mem_map.mpr ⟨"Task",
      by
        unfold sortedCategories
        rw [(List.perm_insertionSort _ _).mem_iff, List.mem_dedup]
        simp [negativeDayTable],
      rfl⟩)
